import Mathlib

/-!
Verification of the alert suppression and chunked dispatch engine of the
clad/elementary repository, together with the dbt_quoting configuration
parser from elementary/config/config.py.

The suppression engine and the chunked dispatcher are exercised by
tests/unit/monitor/api/alerts/test_alerts_api.py but their implementation
module is not part of the source tree here, so those components are
modelled from the specification (each such definition carries a doc
comment starting with `Modelled from the spec:`).  The dbt_quoting parser
is embedded directly from elementary/config/config.py.
-/

/-! ## Data model -/

/-- Modelled from the spec: the alert kind, Test or Model
(spec section 3, missing alerts API module). -/
inductive AlertKind where
  | test
  | model
deriving DecidableEq, Repr

/-- Modelled from the spec: one detected anomaly.  `id` is an opaque unique
string, `identity_key` identifies the logical recurring check (it is
`Option` so that a malformed alert with no identity key can be represented,
as required by the error handling design), `detected_at` is the timestamp
of the run that produced the alert (spec section 3, missing alerts API
module). -/
structure Alert where
  id : String
  kind : AlertKind
  identity_key : Option String
  detected_at : Nat
deriving DecidableEq, Repr

/-- Modelled from the spec: the last-sent record is a mapping from identity
key to the `sent_at` timestamp of the most recent successful notification
(spec section 3, missing alerts API module). -/
abbrev LastSentRecord : Type := List (String × Nat)

/-- Lookup of an identity key in a last-sent record (first matching entry,
as in a mapping with unique keys). -/
def lookupLastSent (lastSent : LastSentRecord) (k : String) : Option Nat :=
  (List.find? (fun p => p.1 == k) lastSent).map Prod.snd

/-! ## Suppression engine -/

/-- Modelled from the spec: a pending alert is suppressed iff a last-sent
record exists for its identity key and that record `sent_at` is not earlier
than the alert `detected_at`; an alert with no identity key, or whose key
has no record, or whose record predates the detection, is not suppressed
(spec sections 4.1 and 7, missing alerts API module). -/
def isSuppressed (lastSent : LastSentRecord) (a : Alert) : Bool :=
  match a.identity_key with
  | none => false
  | some k =>
    match lookupLastSent lastSent k with
    | none => false
    | some sentAt => a.detected_at ≤ sentAt

/-- Modelled from the spec: the suppression pass returns, in input order,
the ids of the pending alerts that are suppressed (spec section 4.1,
contract `suppress(pendingAlerts, lastSent) -> sequence<AlertId>`,
missing alerts API module). -/
def suppress (pendingAlerts : List Alert) (lastSent : LastSentRecord) :
    List String :=
  (pendingAlerts.filter (isSuppressed lastSent)).map Alert.id

/-- Modelled from the spec: the caller-level state holding, per alert kind,
the already-materialized snapshots of pending alerts and last-sent times;
Test and Model partitions are kept in separate mappings (spec sections 2
and 3, missing alerts API module). -/
structure AlertsSnapshot where
  pendingTest : List Alert
  pendingModel : List Alert
  lastSentTest : LastSentRecord
  lastSentModel : LastSentRecord

/-- Modelled from the spec: Test-kind suppression evaluates the Test
pending alerts against the Test last-sent mapping only (spec section 4.1,
missing alerts API module). -/
def suppressedTestAlerts (s : AlertsSnapshot) : List String :=
  suppress s.pendingTest s.lastSentTest

/-- Modelled from the spec: Model-kind suppression evaluates the Model
pending alerts against the Model last-sent mapping only (spec section 4.1,
missing alerts API module). -/
def suppressedModelAlerts (s : AlertsSnapshot) : List String :=
  suppress s.pendingModel s.lastSentModel

/-! ## Chunked dispatcher -/

/-- Fuel-indexed worker for chunk splitting: take `chunkSize` elements,
recurse on the rest.  The fuel is an upper bound on the number of chunks,
instantiated with the list length below. -/
def splitChunksFuel (chunkSize : Nat) : Nat → List α → List (List α)
  | 0, _ => []
  | _, [] => []
  | fuel + 1, l => l.take chunkSize :: splitChunksFuel chunkSize fuel (l.drop chunkSize)

/-- Modelled from the spec: partition `items` into consecutive chunks of at
most `chunkSize` elements, preserving order; the last chunk may be smaller
(spec section 4.2, missing alerts API module `_split_list_to_chunks`).
For `chunkSize = 0` the result is empty; the dispatcher rejects such sizes
before splitting. -/
def splitListToChunks (items : List α) (chunkSize : Nat) : List (List α) :=
  if chunkSize = 0 then [] else splitChunksFuel chunkSize items.length items

/-- Modelled from the spec: per-chunk outcome of one dispatch call.  Each
value of this type records exactly one collaborator invocation: the chunk
index, the remote operation name, the top-level `alert_ids` field of the
JSON payload holding the chunk contents, the fixed arguments replicated
onto the payload, and the success flag of the remote call (spec
sections 3, 4.2 and 6, missing alerts API module). -/
structure ChunkOutcome (α : Type) where
  chunkIndex : Nat
  operationName : String
  alert_ids : List α
  fixedArgs : List (String × String)
  success : Bool
deriving DecidableEq, Repr

/-- Modelled from the spec: the synchronous rejection reasons of the
dispatcher (spec section 7, missing alerts API module). -/
inductive DispatchError where
  | invalidChunkSize
  | missingOperationName
deriving DecidableEq, Repr

/-- Modelled from the spec: the chunked dispatcher.  The chunk size must be
a positive integer and the operation name must be present, otherwise the
call is rejected synchronously before any remote call; otherwise the items
are split into chunks and the command collaborator (`executor`) is invoked
exactly once per chunk, in chunk order, independently per chunk, with the
chunk contents under the `alert_ids` payload field and the fixed arguments
replicated verbatim (spec sections 4.2, 6 and 7, missing alerts API
module). -/
def dispatch (items : List α) (operationName : String) (chunkSize : Int)
    (fixedArgs : List (String × String)) (executor : Nat → List α → Bool) :
    Except DispatchError (List (ChunkOutcome α)) :=
  if chunkSize ≤ 0 then .error .invalidChunkSize
  else if operationName = "" then .error .missingOperationName
  else .ok ((splitListToChunks items chunkSize.toNat).enum.map
    (fun p => ⟨p.1, operationName, p.2, fixedArgs, executor p.1 p.2⟩))

/-- Modelled from the spec: the default chunk size is 50 (spec
sections 4.2 and 6, missing alerts API module). -/
def DEFAULT_CHUNK_SIZE : Int := 50

/-- Modelled from the spec: dispatch with the chunk size omitted by the
caller, hence the default of 50 (spec section 4.2, missing alerts API
module). -/
def dispatchDefault (items : List α) (operationName : String)
    (fixedArgs : List (String × String)) (executor : Nat → List α → Bool) :
    Except DispatchError (List (ChunkOutcome α)) :=
  dispatch items operationName DEFAULT_CHUNK_SIZE fixedArgs executor

/-- Modelled from the spec: mark alerts as sent; items are alert ids, the
remote operation is `update_sent_alerts`, and the table name is a fixed
per-dispatch argument (spec sections 4.2 and 4.3, missing alerts API
module `update_sent_alerts`). -/
def updateSentAlerts (alertIds : List String) (tableName : String)
    (executor : Nat → List String → Bool) :
    Except DispatchError (List (ChunkOutcome String)) :=
  dispatchDefault alertIds "update_sent_alerts" [("table_name", tableName)] executor

/-- Modelled from the spec: mark alerts as skipped; items are full alert
records, the remote operation is `update_skipped_alerts`, and the table
name is a fixed per-dispatch argument (spec sections 4.2 and 4.3, missing
alerts API module `skip_alerts`). -/
def skipAlerts (alertsToSkip : List Alert) (tableName : String)
    (executor : Nat → List Alert → Bool) :
    Except DispatchError (List (ChunkOutcome Alert)) :=
  dispatchDefault alertsToSkip "update_skipped_alerts" [("table_name", tableName)] executor

/-- Number of collaborator invocations recorded by a dispatch result: one
per chunk outcome, none on synchronous rejection. -/
def invocationCount (r : Except DispatchError (List (ChunkOutcome α))) : Nat :=
  match r with
  | .error _ => 0
  | .ok outcomes => outcomes.length

/-! ## The dbt_quoting configuration parser
(embedded from elementary/config/config.py, lines 28-36 and 198-228) -/

/-- A JSON value as returned by the Python json.loads library call.  The
parser itself is external library code and is kept abstract below as a
function `String → Option PyJson`; `none` models a JSONDecodeError. -/
inductive PyJson where
  | null
  | bool (b : Bool)
  | num (n : Int)
  | str (s : String)
  | arr (items : List PyJson)
  | obj (fields : List (String × PyJson))

/-- The error raised by Config for bad arguments
(elementary.exceptions.InvalidArgumentsError). -/
inductive ConfigError where
  | invalidArguments (msg : String)
deriving DecidableEq, Repr

/-- The fully populated dbt_quoting value built by `_parse_dbt_quoting`:
a mapping with exactly the keys database, schema and identifier, each
either a boolean or None. -/
structure DbtQuoting where
  database : Option Bool
  schema : Option Bool
  identifier : Option Bool
deriving DecidableEq, Repr

/-- A JSON value of type boolean or null, as required for each property by
DBT_TRACKING_JSON_SCHEMA (config.py lines 28-36). -/
def isBoolOrNull : PyJson → Bool
  | .bool _ => true
  | .null => true
  | _ => false

/-- The check jsonschema.validate performs against
DBT_TRACKING_JSON_SCHEMA (config.py lines 28-36): the value is an object,
every key is one of database, schema, identifier (additionalProperties is
false), and every value is boolean or null. -/
def validateDbtTracking : PyJson → Bool
  | .obj fields => fields.all
      (fun f => (f.1 == "database" || f.1 == "schema" || f.1 == "identifier")
        && isBoolOrNull f.2)
  | _ => false

/-- Lookup of a key in a JSON object field list; the last occurrence wins,
as in a Python dict built by json.loads. -/
def getKey (fields : List (String × PyJson)) (k : String) : Option PyJson :=
  ((fields.filter (fun f => f.1 == k)).map Prod.snd).getLast?

/-- The value a key contributes to the full dbt_quoting dict: a present
boolean overrides the None default; an absent key or a null value leaves
None (config.py lines 213-218, the update of full_dbt_quoting). -/
def toQuotingField (v : Option PyJson) : Option Bool :=
  match v with
  | some (.bool b) => some b
  | _ => none

/-- Completion of a parsed, schema-valid JSON object with None for absent
keys (config.py lines 213-219: full_dbt_quoting initialized to None per
key, then updated with the parsed dict). -/
def completeDbtQuoting (fields : List (String × PyJson)) : DbtQuoting :=
  ⟨toQuotingField (getKey fields "database"),
   toQuotingField (getKey fields "schema"),
   toQuotingField (getKey fields "identifier")⟩

/-- Python str.strip with no argument: remove leading and trailing
whitespace characters (models the strip call on config.py line 203). -/
def pyStrip (s : String) : String :=
  ⟨((s.data.dropWhile Char.isWhitespace).reverse.dropWhile Char.isWhitespace).reverse⟩

/-- Embedding of Config._parse_dbt_quoting (config.py lines 198-228).
Python str.strip is modelled by pyStrip and json.loads by the abstract
`loads` argument; jsonschema.validate against DBT_TRACKING_JSON_SCHEMA is
`validateDbtTracking` above.  None maps to None; the stripped strings
"all" and "none" map to the all-True and all-False mappings; any other
string is JSON-parsed and schema-validated, a success returning the parsed
object completed with None for absent keys, a JSONDecodeError or a schema
violation raising InvalidArgumentsError. -/
def parseDbtQuoting (loads : String → Option PyJson) :
    Option String → Except ConfigError (Option DbtQuoting)
  | none => .ok none
  | some s =>
    let t := pyStrip s
    if t = "all" then .ok (some ⟨some true, some true, some true⟩)
    else if t = "none" then .ok (some ⟨some false, some false, some false⟩)
    else
      match loads t with
      | none => .error (.invalidArguments
          "An invalid JSON was passed for argument dbt_quoting")
      | some (.obj fields) =>
        if validateDbtTracking (.obj fields) then
          .ok (some (completeDbtQuoting fields))
        else .error (.invalidArguments
          "The supplied parameter dbt_quoting is a valid JSON but has an incorrect format")
      | some _ => .error (.invalidArguments
          "The supplied parameter dbt_quoting is a valid JSON but has an incorrect format")

/-- A concrete stand-in for json.loads used to exercise the parser: the
string x parses to the object with a single boolean database key,
everything else fails to parse. -/
def loadsW : String → Option PyJson :=
  fun t =>
    if t = "x" then some (PyJson.obj [("database", PyJson.bool true)]) else none

/-- The schema condition stated in the words of the specification claim:
the JSON value is an object whose keys are a subset of database, schema,
identifier, with boolean-or-null values. -/
def SchemaOkSpec (fields : List (String × PyJson)) : Prop :=
  ∀ f ∈ fields,
    (f.1 = "database" ∨ f.1 = "schema" ∨ f.1 = "identifier")
    ∧ (f.2 = .null ∨ ∃ b, f.2 = .bool b)

/-! ## Lemmas about chunk splitting -/

theorem splitChunksFuel_nil (c : Nat) (fuel : Nat) :
    splitChunksFuel c fuel ([] : List α) = [] := by
  cases fuel <;> rfl

theorem splitChunksFuel_flatten (c : Nat) (hc : 0 < c) :
    ∀ (fuel : Nat) (l : List α), l.length ≤ fuel →
      (splitChunksFuel c fuel l).flatten = l := by
  intro fuel
  induction fuel with
  | zero =>
    intro l hl
    have hnil : l = [] := List.eq_nil_of_length_eq_zero (Nat.le_zero.mp hl)
    subst hnil
    rfl
  | succ n ih =>
    intro l hl
    cases l with
    | nil => rfl
    | cons x xs =>
      simp only [splitChunksFuel, List.flatten_cons]
      rw [ih ((x :: xs).drop c) (by simp only [List.length_drop]; simp at hl ⊢; omega),
        List.take_append_drop]

theorem splitChunksFuel_length (c : Nat) (hc : 0 < c) :
    ∀ (fuel : Nat) (l : List α), l.length ≤ fuel →
      (splitChunksFuel c fuel l).length = (l.length + c - 1) / c := by
  have key : ∀ m : Nat, 1 ≤ m → (m + c - 1) / c = (m - 1) / c + 1 := by
    intro m hm
    have h : m + c - 1 = (m - 1) + c := by omega
    rw [h, Nat.add_div_right _ hc]
  intro fuel
  induction fuel with
  | zero =>
    intro l hl
    have hnil : l = [] := List.eq_nil_of_length_eq_zero (Nat.le_zero.mp hl)
    subst hnil
    simp [splitChunksFuel, Nat.div_eq_of_lt (show c - 1 < c by omega)]
  | succ n ih =>
    intro l hl
    cases l with
    | nil => simp [splitChunksFuel, Nat.div_eq_of_lt (show c - 1 < c by omega)]
    | cons x xs =>
      simp only [splitChunksFuel, List.length_cons]
      rw [ih ((x :: xs).drop c) (by simp only [List.length_drop]; simp at hl ⊢; omega)]
      simp only [List.length_drop, List.length_cons]
      rw [key (xs.length + 1) (by omega)]
      rcases Nat.lt_or_ge (xs.length + 1) c with h | h
      · have h1 : xs.length + 1 - c = 0 := by omega
        rw [h1, Nat.div_eq_of_lt (show 0 + c - 1 < c by omega),
          Nat.div_eq_of_lt (show xs.length + 1 - 1 < c by omega)]
      · have h1 : xs.length + 1 - c + c - 1 = xs.length + 1 - 1 := by omega
        rw [h1]

theorem splitChunksFuel_sizes (c : Nat) :
    ∀ (fuel : Nat) (l : List α) (ch : List α),
      ch ∈ splitChunksFuel c fuel l → ch.length ≤ c := by
  intro fuel
  induction fuel with
  | zero =>
    intro l ch h
    simp [splitChunksFuel] at h
  | succ n ih =>
    intro l ch h
    cases l with
    | nil => simp [splitChunksFuel] at h
    | cons x xs =>
      simp only [splitChunksFuel, List.mem_cons] at h
      rcases h with h | h
      · subst h
        simp [List.length_take]
      · exact ih _ ch h

theorem splitChunksFuel_dropLast (c : Nat) (hc : 0 < c) :
    ∀ (fuel : Nat) (l : List α), l.length ≤ fuel →
      ∀ ch ∈ (splitChunksFuel c fuel l).dropLast, ch.length = c := by
  intro fuel
  induction fuel with
  | zero =>
    intro l hl ch h
    have hnil : l = [] := List.eq_nil_of_length_eq_zero (Nat.le_zero.mp hl)
    subst hnil
    simp [splitChunksFuel] at h
  | succ n ih =>
    intro l hl ch h
    cases l with
    | nil => simp [splitChunksFuel] at h
    | cons x xs =>
      simp only [splitChunksFuel] at h
      rcases hrest : splitChunksFuel c n ((x :: xs).drop c) with _ | ⟨r, rs⟩
      · rw [hrest] at h
        simp at h
      · rw [hrest, List.dropLast_cons_of_ne_nil (by simp), List.mem_cons] at h
        have hdrop : (x :: xs).drop c ≠ [] := by
          intro hd
          rw [hd, splitChunksFuel_nil] at hrest
          exact List.noConfusion hrest
        have hlen : c < (x :: xs).length := by
          by_contra hle
          exact hdrop (List.drop_eq_nil_of_le (by omega))
        rcases h with h | h
        · subst h
          simp only [List.length_take]
          omega
        · rw [← hrest] at h
          exact ih ((x :: xs).drop c)
            (by simp only [List.length_drop]; simp at hl ⊢; omega) ch h

theorem splitListToChunks_flatten (c : Nat) (hc : 0 < c) (l : List α) :
    (splitListToChunks l c).flatten = l := by
  unfold splitListToChunks
  rw [if_neg (Nat.pos_iff_ne_zero.mp hc)]
  exact splitChunksFuel_flatten c hc l.length l le_rfl

theorem splitListToChunks_length (c : Nat) (hc : 0 < c) (l : List α) :
    (splitListToChunks l c).length = (l.length + c - 1) / c := by
  unfold splitListToChunks
  rw [if_neg (Nat.pos_iff_ne_zero.mp hc)]
  exact splitChunksFuel_length c hc l.length l le_rfl

theorem splitListToChunks_sizes (c : Nat) (l : List α) :
    ∀ ch ∈ splitListToChunks l c, ch.length ≤ c := by
  intro ch h
  unfold splitListToChunks at h
  by_cases hc : c = 0
  · rw [if_pos hc] at h
    simp at h
  · rw [if_neg hc] at h
    exact splitChunksFuel_sizes c l.length l ch h

theorem splitListToChunks_dropLast (c : Nat) (hc : 0 < c) (l : List α) :
    ∀ ch ∈ (splitListToChunks l c).dropLast, ch.length = c := by
  intro ch h
  unfold splitListToChunks at h
  rw [if_neg (Nat.pos_iff_ne_zero.mp hc)] at h
  exact splitChunksFuel_dropLast c hc l.length l le_rfl ch h

theorem splitListToChunks_nil (c : Nat) :
    splitListToChunks ([] : List α) c = [] := by
  unfold splitListToChunks
  by_cases hc : c = 0
  · rw [if_pos hc]
  · rw [if_neg hc]
    exact splitChunksFuel_nil c 0

/-! ## Lemmas about suppression -/

/-- Under unique alert ids, the id of a pending alert is in the suppression
result exactly when the alert itself passes the suppression check. -/
theorem mem_suppress_iff (pendingAlerts : List Alert) (lastSent : LastSentRecord)
    (A : Alert) (hA : A ∈ pendingAlerts)
    (huniq : ∀ B ∈ pendingAlerts, B.id = A.id → B = A) :
    A.id ∈ suppress pendingAlerts lastSent ↔ isSuppressed lastSent A = true := by
  unfold suppress
  constructor
  · intro h
    obtain ⟨B, hBf, hBid⟩ := List.mem_map.mp h
    obtain ⟨hBmem, hBsup⟩ := List.mem_filter.mp hBf
    rwa [huniq B hBmem hBid] at hBsup
  · intro h
    exact List.mem_map_of_mem Alert.id (List.mem_filter.mpr ⟨hA, h⟩)

/-- The suppression check only reads the identity key and the detection
time of an alert, besides the shared last-sent snapshot. -/
theorem isSuppressed_congr (lastSent : LastSentRecord) (A B : Alert)
    (hkey : A.identity_key = B.identity_key)
    (hdet : A.detected_at = B.detected_at) :
    isSuppressed lastSent A = isSuppressed lastSent B := by
  unfold isSuppressed
  rw [hkey, hdet]

/-! ## Claim theorems -/

/-- C1: for every pending alert A with identity key k, if the lastSent
mapping contains an entry for k whose sent_at is not earlier than
A.detected_at then the id of A appears in the suppression result, and if
the mapping contains no entry for k then the id of A never appears in the
result (ids are unique per alert occurrence, which the second part states
as an explicit hypothesis). -/
theorem suppression_correct (pendingAlerts : List Alert)
    (lastSent : LastSentRecord) (A : Alert) (k : String)
    (hA : A ∈ pendingAlerts) (hk : A.identity_key = some k) :
    ((∃ s, lookupLastSent lastSent k = some s ∧ A.detected_at ≤ s) →
      A.id ∈ suppress pendingAlerts lastSent)
    ∧ (lookupLastSent lastSent k = none →
      (∀ B ∈ pendingAlerts, B.id = A.id → B = A) →
      A.id ∉ suppress pendingAlerts lastSent) := by
  constructor
  · rintro ⟨s, hs, hle⟩
    have hsup : isSuppressed lastSent A = true := by
      simp [isSuppressed, hk, hs, hle]
    exact List.mem_map_of_mem Alert.id (List.mem_filter.mpr ⟨hA, hsup⟩)
  · intro hnone huniq hmem
    have hsup := (mem_suppress_iff pendingAlerts lastSent A hA huniq).mp hmem
    simp [isSuppressed, hk, hnone] at hsup

/-- C1 witness: a concrete suppressed alert and a concrete alert whose key
has no last-sent entry. -/
theorem suppression_correct_witness :
    (Alert.mk "a1" .test (some "k1") 5) ∈
      [Alert.mk "a1" .test (some "k1") 5, Alert.mk "a2" .test (some "k2") 5]
    ∧ (Alert.mk "a1" .test (some "k1") 5).identity_key = some "k1"
    ∧ (((∃ s, lookupLastSent [("k1", 10)] "k1" = some s
          ∧ (Alert.mk "a1" .test (some "k1") 5).detected_at ≤ s) →
        "a1" ∈ suppress
          [Alert.mk "a1" .test (some "k1") 5, Alert.mk "a2" .test (some "k2") 5]
          [("k1", 10)])
      ∧ (lookupLastSent [("k1", 10)] "k1" = none →
        (∀ B ∈ [Alert.mk "a1" .test (some "k1") 5,
            Alert.mk "a2" .test (some "k2") 5],
          B.id = "a1" → B = Alert.mk "a1" .test (some "k1") 5) →
        "a1" ∉ suppress
          [Alert.mk "a1" .test (some "k1") 5, Alert.mk "a2" .test (some "k2") 5]
          [("k1", 10)])) :=
  ⟨by decide, by decide,
    suppression_correct
      [Alert.mk "a1" .test (some "k1") 5, Alert.mk "a2" .test (some "k2") 5]
      [("k1", 10)] (Alert.mk "a1" .test (some "k1") 5) "k1"
      (by decide) (by decide)⟩

/-- C4: two-run noninterference of the suppression partitions.  The
Test-kind suppression result is unchanged under any change of the
Model-kind pending alerts and last-sent mapping, and symmetrically; in
particular an identity key in one partition never influences the other
kind, even when keys collide across kinds. -/
theorem suppression_partition_independence
    (pt pt' pm pm' : List Alert) (lt lt' lm lm' : LastSentRecord) :
    suppressedTestAlerts ⟨pt, pm, lt, lm⟩ = suppressedTestAlerts ⟨pt, pm', lt, lm'⟩
    ∧ suppressedModelAlerts ⟨pt, pm, lt, lm⟩
      = suppressedModelAlerts ⟨pt', pm, lt', lm⟩ :=
  ⟨rfl, rfl⟩

/-- C8 counterexample: two pending alerts of one pass share the same
identity key but have different detection times; with a last-sent time
between the two, the suppression result contains the first and not the
second, a mix within the group sharing one identity key. -/
theorem suppression_shared_key_mix :
    (Alert.mk "a1" .test (some "k") 5).identity_key
      = (Alert.mk "a2" .test (some "k") 20).identity_key
    ∧ "a1" ∈ suppress
        [Alert.mk "a1" .test (some "k") 5, Alert.mk "a2" .test (some "k") 20]
        [("k", 10)]
    ∧ "a2" ∉ suppress
        [Alert.mk "a1" .test (some "k") 5, Alert.mk "a2" .test (some "k") 20]
        [("k", 10)] := by
  decide

/-- C8 amended: pending alerts of one pass that share both the identity key
and the detection time are suppressed all together or not at all, each
being evaluated independently against the same last-sent snapshot (ids
unique per occurrence, stated as an explicit hypothesis). -/
theorem suppression_shared_key_all_or_none (pendingAlerts : List Alert)
    (lastSent : LastSentRecord) (A B : Alert)
    (hA : A ∈ pendingAlerts) (hB : B ∈ pendingAlerts)
    (hkey : A.identity_key = B.identity_key)
    (hdet : A.detected_at = B.detected_at)
    (huniqA : ∀ C ∈ pendingAlerts, C.id = A.id → C = A)
    (huniqB : ∀ C ∈ pendingAlerts, C.id = B.id → C = B) :
    (A.id ∈ suppress pendingAlerts lastSent
      ↔ B.id ∈ suppress pendingAlerts lastSent) := by
  rw [mem_suppress_iff pendingAlerts lastSent A hA huniqA,
    mem_suppress_iff pendingAlerts lastSent B hB huniqB,
    isSuppressed_congr lastSent A B hkey hdet]

/-- C8 amended witness: two alerts sharing identity key and detection time,
both suppressed. -/
theorem suppression_shared_key_all_or_none_witness :
    (Alert.mk "a1" .test (some "k") 5) ∈
      [Alert.mk "a1" .test (some "k") 5, Alert.mk "a2" .test (some "k") 5]
    ∧ ("a1" ∈ suppress
        [Alert.mk "a1" .test (some "k") 5, Alert.mk "a2" .test (some "k") 5]
        [("k", 10)]
      ↔ "a2" ∈ suppress
        [Alert.mk "a1" .test (some "k") 5, Alert.mk "a2" .test (some "k") 5]
        [("k", 10)]) :=
  ⟨by decide,
    suppression_shared_key_all_or_none
      [Alert.mk "a1" .test (some "k") 5, Alert.mk "a2" .test (some "k") 5]
      [("k", 10)]
      (Alert.mk "a1" .test (some "k") 5) (Alert.mk "a2" .test (some "k") 5)
      (by decide) (by decide) (by decide) (by decide) (by decide) (by decide)⟩

/-- C9: the suppression pass is a total function (it is defined for every
input, so it raises nothing), and a malformed pending alert with no
identity key is treated as not suppressed: its id is omitted from the
result (ids unique per occurrence, stated as an explicit hypothesis). -/
theorem suppression_malformed_not_suppressed (pendingAlerts : List Alert)
    (lastSent : LastSentRecord) (A : Alert)
    (hA : A ∈ pendingAlerts) (hkey : A.identity_key = none)
    (huniq : ∀ B ∈ pendingAlerts, B.id = A.id → B = A) :
    A.id ∉ suppress pendingAlerts lastSent := by
  rw [mem_suppress_iff pendingAlerts lastSent A hA huniq]
  simp [isSuppressed, hkey]

/-- C9 witness: a malformed alert with no identity key, next to a normal
suppressed alert; the pass returns a result not containing the malformed
id. -/
theorem suppression_malformed_not_suppressed_witness :
    (Alert.mk "bad" .test none 5) ∈
      [Alert.mk "a1" .test (some "k") 5, Alert.mk "bad" .test none 5]
    ∧ "bad" ∉ suppress
        [Alert.mk "a1" .test (some "k") 5, Alert.mk "bad" .test none 5]
        [("k", 10)] :=
  ⟨by decide,
    suppression_malformed_not_suppressed
      [Alert.mk "a1" .test (some "k") 5, Alert.mk "bad" .test none 5]
      [("k", 10)] (Alert.mk "bad" .test none 5)
      (by decide) (by decide) (by decide)⟩

/-- C2: for every input list of length N and chunk size C > 0 the
dispatcher partitions the list into exactly ceil(N/C) chunks whose
concatenation is the input in original order, no chunk exceeds size C and
all chunks but the last have size exactly C, one collaborator invocation
is recorded per chunk, and zero items give zero chunks and zero
invocations. -/
theorem dispatch_chunk_completeness {α : Type} (items : List α) (c : Nat)
    (op : String) (fa : List (String × String)) (ex : Nat → List α → Bool)
    (hc : 0 < c) (hop : op ≠ "") :
    (splitListToChunks items c).length = (items.length + c - 1) / c
    ∧ (splitListToChunks items c).flatten = items
    ∧ (∀ ch ∈ splitListToChunks items c, ch.length ≤ c)
    ∧ (∀ ch ∈ (splitListToChunks items c).dropLast, ch.length = c)
    ∧ invocationCount (dispatch items op (c : Int) fa ex)
      = (splitListToChunks items c).length
    ∧ (items = [] → splitListToChunks items c = []
      ∧ invocationCount (dispatch items op (c : Int) fa ex) = 0) := by
  have hcount : invocationCount (dispatch items op (c : Int) fa ex)
      = (splitListToChunks items c).length := by
    unfold dispatch
    rw [if_neg (show ¬ ((c : Int) ≤ 0) by omega), if_neg hop]
    simp [invocationCount]
  refine ⟨splitListToChunks_length c hc items,
    splitListToChunks_flatten c hc items,
    splitListToChunks_sizes c items,
    splitListToChunks_dropLast c hc items,
    hcount, ?_⟩
  intro h
  subst h
  exact ⟨splitListToChunks_nil c, by rw [hcount, splitListToChunks_nil]; rfl⟩

/-- C2 witness: five items with chunk size two give three chunks. -/
theorem dispatch_chunk_completeness_witness :
    0 < 2 ∧ "op" ≠ ""
    ∧ ((splitListToChunks ["a", "b", "c", "d", "e"] 2).length
        = (["a", "b", "c", "d", "e"].length + 2 - 1) / 2
      ∧ (splitListToChunks ["a", "b", "c", "d", "e"] 2).flatten
        = ["a", "b", "c", "d", "e"]
      ∧ (∀ ch ∈ splitListToChunks ["a", "b", "c", "d", "e"] 2, ch.length ≤ 2)
      ∧ (∀ ch ∈ (splitListToChunks ["a", "b", "c", "d", "e"] 2).dropLast,
          ch.length = 2)
      ∧ invocationCount
          (dispatch ["a", "b", "c", "d", "e"] "op" ((2 : Nat) : Int) []
            (fun _ _ => true))
        = (splitListToChunks ["a", "b", "c", "d", "e"] 2).length
      ∧ (["a", "b", "c", "d", "e"] = ([] : List String) →
          splitListToChunks ["a", "b", "c", "d", "e"] 2 = []
          ∧ invocationCount
            (dispatch ["a", "b", "c", "d", "e"] "op" ((2 : Nat) : Int) []
              (fun _ _ => true)) = 0)) :=
  ⟨by decide, by decide,
    dispatch_chunk_completeness ["a", "b", "c", "d", "e"] 2 "op" []
      (fun _ _ => true) (by decide) (by decide)⟩

set_option maxRecDepth 40000 in
/-- C3: the default chunk size is 50 and is used when the caller omits the
size: 150 items split into three chunks of 50 and 60 items into two chunks
of sizes 50 and 10; the size is overridable per call, an explicit size of
10 on 150 items giving 15 chunks and 15 recorded invocations. -/
theorem dispatch_default_chunk_size :
    DEFAULT_CHUNK_SIZE = 50
    ∧ (∀ (items : List String) (op : String) (fa : List (String × String))
        (ex : Nat → List String → Bool),
        dispatchDefault items op fa ex = dispatch items op 50 fa ex)
    ∧ (splitListToChunks (List.replicate 150 "x") DEFAULT_CHUNK_SIZE.toNat).map
        List.length = List.replicate 3 50
    ∧ (splitListToChunks (List.replicate 60 "x") DEFAULT_CHUNK_SIZE.toNat).map
        List.length = [50, 10]
    ∧ (splitListToChunks (List.replicate 150 "x") 10).map List.length
      = List.replicate 15 10
    ∧ invocationCount
        (dispatch (List.replicate 150 "x") "op" 10 [] (fun _ _ => true)) = 15 :=
  ⟨rfl, fun _ _ _ _ => rfl, by decide, by decide, by decide, by decide⟩

/-- C5: the dispatcher never short-circuits: with a valid chunk size and
operation name it returns one outcome per chunk whatever the executor
answers, the outcome at index i reports chunk i in chunk order and its
success flag is exactly the answer of the executor for that chunk alone,
so a failing chunk leaves every other chunk attempted and reported. -/
theorem dispatch_no_short_circuit {α : Type} (items : List α) (op : String)
    (c : Int) (fa : List (String × String)) (ex : Nat → List α → Bool)
    (hc : 0 < c) (hop : op ≠ "") :
    ∃ outcomes, dispatch items op c fa ex = .ok outcomes
      ∧ outcomes.length = (splitListToChunks items c.toNat).length
      ∧ ∀ i : Nat, outcomes[i]?
          = ((splitListToChunks items c.toNat)[i]?).map
            (fun ch => ⟨i, op, ch, fa, ex i ch⟩) := by
  refine ⟨(splitListToChunks items c.toNat).enum.map
    (fun p => ⟨p.1, op, p.2, fa, ex p.1 p.2⟩), ?_, by simp, ?_⟩
  · unfold dispatch
    rw [if_neg (by omega), if_neg hop]
  · intro i
    rw [List.getElem?_map, List.getElem?_enum]
    cases (splitListToChunks items c.toNat)[i]? <;> rfl

/-- C5 witness: three chunks with the second remote call failing; the
first and third are still attempted and reported as successes, in chunk
order. -/
theorem dispatch_no_short_circuit_witness :
    (0 : Int) < 2 ∧ "op" ≠ ""
    ∧ (∃ outcomes,
        dispatch ["a", "b", "c", "d", "e"] "op" 2 []
          (fun i _ => decide (i ≠ 1)) = .ok outcomes
        ∧ outcomes.length
          = (splitListToChunks ["a", "b", "c", "d", "e"] (2 : Int).toNat).length
        ∧ ∀ i : Nat, outcomes[i]?
            = ((splitListToChunks ["a", "b", "c", "d", "e"] (2 : Int).toNat)[i]?).map
              (fun ch => ⟨i, "op", ch, [], decide (i ≠ 1)⟩))
    ∧ (dispatch ["a", "b", "c", "d", "e"] "op" 2 []
        (fun i _ => decide (i ≠ 1))).toOption
      = some [⟨0, "op", ["a", "b"], [], true⟩, ⟨1, "op", ["c", "d"], [], false⟩,
          ⟨2, "op", ["e"], [], true⟩] :=
  ⟨by decide, by decide,
    dispatch_no_short_circuit ["a", "b", "c", "d", "e"] "op" 2 []
      (fun i _ => decide (i ≠ 1)) (by decide) (by decide),
    by decide⟩

/-- C6: for each chunk the dispatcher records exactly one collaborator
invocation carrying the operation name and a payload with that chunk under
the alert_ids field and the fixed table_name argument replicated verbatim,
for the mark-sent operation on alert ids and the mark-skipped operation on
full alert records. -/
theorem dispatch_chunk_payload (alertIds : List String)
    (alertsToSkip : List Alert) (tableName : String)
    (exIds : Nat → List String → Bool) (exAlerts : Nat → List Alert → Bool) :
    updateSentAlerts alertIds tableName exIds
      = .ok ((splitListToChunks alertIds 50).enum.map
          (fun p => ⟨p.1, "update_sent_alerts", p.2,
            [("table_name", tableName)], exIds p.1 p.2⟩))
    ∧ skipAlerts alertsToSkip tableName exAlerts
      = .ok ((splitListToChunks alertsToSkip 50).enum.map
          (fun p => ⟨p.1, "update_skipped_alerts", p.2,
            [("table_name", tableName)], exAlerts p.1 p.2⟩)) :=
  ⟨rfl, rfl⟩

/-- C7: a chunk size that is not positive, or a missing operation name, is
rejected synchronously: the dispatch result is an error whatever the
executor, the result does not depend on the executor at all, and zero
collaborator invocations are recorded. -/
theorem dispatch_rejects_invalid {α : Type} (items : List α) (op : String)
    (c : Int) (fa : List (String × String))
    (h : c ≤ 0 ∨ op = "") :
    (∃ e, ∀ ex, dispatch items op c fa ex = .error e)
    ∧ (∀ ex ex', dispatch items op c fa ex = dispatch items op c fa ex')
    ∧ (∀ ex, invocationCount (dispatch items op c fa ex) = 0) := by
  by_cases hc : c ≤ 0
  · have hall : ∀ ex : Nat → List α → Bool,
        dispatch items op c fa ex = .error .invalidChunkSize := by
      intro ex
      unfold dispatch
      rw [if_pos hc]
    exact ⟨⟨.invalidChunkSize, hall⟩,
      fun ex ex' => by rw [hall ex, hall ex'],
      fun ex => by rw [hall ex]; rfl⟩
  · have hop : op = "" := h.resolve_left hc
    have hall : ∀ ex : Nat → List α → Bool,
        dispatch items op c fa ex = .error .missingOperationName := by
      intro ex
      unfold dispatch
      rw [if_neg hc, if_pos hop]
    exact ⟨⟨.missingOperationName, hall⟩,
      fun ex ex' => by rw [hall ex, hall ex'],
      fun ex => by rw [hall ex]; rfl⟩

/-- A JSON value is boolean-or-null exactly when it is null or a boolean. -/
theorem isBoolOrNull_iff (v : PyJson) :
    isBoolOrNull v = true ↔ (v = .null ∨ ∃ b, v = .bool b) := by
  cases v <;> simp [isBoolOrNull]

/-- The executable schema check agrees with the schema condition stated in
the words of the specification. -/
theorem validateDbtTracking_iff (fields : List (String × PyJson)) :
    validateDbtTracking (.obj fields) = true ↔ SchemaOkSpec fields := by
  unfold validateDbtTracking SchemaOkSpec
  simp [List.all_eq_true, isBoolOrNull_iff, or_assoc]

/-- Unfolding equation of parseDbtQuoting on a present string. -/
theorem parseDbtQuoting_some (loads : String → Option PyJson) (s : String) :
    parseDbtQuoting loads (some s) =
      (if pyStrip s = "all" then .ok (some ⟨some true, some true, some true⟩)
      else if pyStrip s = "none" then
        .ok (some ⟨some false, some false, some false⟩)
      else
        match loads (pyStrip s) with
        | none => .error (.invalidArguments
            "An invalid JSON was passed for argument dbt_quoting")
        | some (.obj fields) =>
          if validateDbtTracking (.obj fields) then
            .ok (some (completeDbtQuoting fields))
          else .error (.invalidArguments
            "The supplied parameter dbt_quoting is a valid JSON but has an incorrect format")
        | some _ => .error (.invalidArguments
            "The supplied parameter dbt_quoting is a valid JSON but has an incorrect format")) :=
  rfl

/-- C10: the dbt_quoting parser maps None to None; a string stripping to
all or none to the all-True or all-False mapping; any other string to the
parsed JSON object completed with None for absent keys exactly when the
string parses as a JSON object whose keys are a subset of database,
schema, identifier with boolean-or-null values, and to an
InvalidArgumentsError otherwise, both for invalid JSON and for
schema-violating JSON. -/
theorem parse_dbt_quoting_correct (loads : String → Option PyJson)
    (s : String) :
    parseDbtQuoting loads none = .ok none
    ∧ (pyStrip s = "all" →
      parseDbtQuoting loads (some s)
        = .ok (some ⟨some true, some true, some true⟩))
    ∧ (pyStrip s = "none" →
      parseDbtQuoting loads (some s)
        = .ok (some ⟨some false, some false, some false⟩))
    ∧ (pyStrip s ≠ "all" → pyStrip s ≠ "none" →
      ((∀ fields, loads (pyStrip s) = some (.obj fields) → SchemaOkSpec fields →
        parseDbtQuoting loads (some s) = .ok (some (completeDbtQuoting fields)))
      ∧ ((∃ q, parseDbtQuoting loads (some s) = .ok (some q))
        ↔ (∃ fields, loads (pyStrip s) = some (.obj fields) ∧ SchemaOkSpec fields))
      ∧ (loads (pyStrip s) = none →
        parseDbtQuoting loads (some s) = .error (.invalidArguments
          "An invalid JSON was passed for argument dbt_quoting"))
      ∧ (∀ j, loads (pyStrip s) = some j →
        ¬ (∃ fields, j = .obj fields ∧ SchemaOkSpec fields) →
        parseDbtQuoting loads (some s) = .error (.invalidArguments
          "The supplied parameter dbt_quoting is a valid JSON but has an incorrect format")))) := by
  refine ⟨rfl, ?_, ?_, ?_⟩
  · intro h
    rw [parseDbtQuoting_some, if_pos h]
  · intro h
    rw [parseDbtQuoting_some, if_neg (by simp [h]), if_pos h]
  · intro hall hnone
    rw [parseDbtQuoting_some, if_neg hall, if_neg hnone]
    refine ⟨?_, ?_, ?_, ?_⟩
    · intro fields hl hok
      rw [hl]
      simp only
      rw [if_pos ((validateDbtTracking_iff fields).mpr hok)]
    · rcases hl : loads (pyStrip s) with _ | j
      · simp
      · cases j with
        | obj fields =>
          simp only
          by_cases hv : validateDbtTracking (.obj fields) = true
          · rw [if_pos hv]
            simp only [Except.ok.injEq, Option.some.injEq]
            constructor
            · intro _
              exact ⟨fields, rfl, (validateDbtTracking_iff fields).mp hv⟩
            · intro _
              exact ⟨completeDbtQuoting fields, rfl⟩
          · rw [if_neg hv]
            simp only [reduceCtorEq, exists_false, false_iff, not_exists, not_and]
            intro fs hfs
            cases hfs
            intro hok
            exact hv ((validateDbtTracking_iff fields).mpr hok)
        | null => simp
        | bool b => simp
        | num n => simp
        | str t => simp
        | arr items => simp
    · intro hl
      rw [hl]
    · intro j hl hbad
      rw [hl]
      cases j with
      | obj fields =>
        simp only
        rw [if_neg ?_]
        intro hv
        exact hbad ⟨fields, rfl, (validateDbtTracking_iff fields).mp hv⟩
      | null => rfl
      | bool b => rfl
      | num n => rfl
      | str t => rfl
      | arr items => rfl

/-- C10 witness: a concrete parser and string exercising the claim at a
valid JSON object input. -/
theorem parse_dbt_quoting_correct_witness :
    parseDbtQuoting loadsW none = .ok none
    ∧ (pyStrip "x" = "all" →
      parseDbtQuoting loadsW (some "x")
        = .ok (some ⟨some true, some true, some true⟩))
    ∧ (pyStrip "x" = "none" →
      parseDbtQuoting loadsW (some "x")
        = .ok (some ⟨some false, some false, some false⟩))
    ∧ (pyStrip "x" ≠ "all" → pyStrip "x" ≠ "none" →
      ((∀ fields, loadsW (pyStrip "x") = some (PyJson.obj fields) →
        SchemaOkSpec fields →
        parseDbtQuoting loadsW (some "x") = .ok (some (completeDbtQuoting fields)))
      ∧ ((∃ q, parseDbtQuoting loadsW (some "x") = .ok (some q))
        ↔ (∃ fields, loadsW (pyStrip "x") = some (PyJson.obj fields)
            ∧ SchemaOkSpec fields))
      ∧ (loadsW (pyStrip "x") = none →
        parseDbtQuoting loadsW (some "x") = .error (.invalidArguments
          "An invalid JSON was passed for argument dbt_quoting"))
      ∧ (∀ j : PyJson, loadsW (pyStrip "x") = some j →
        ¬ (∃ fields, j = PyJson.obj fields ∧ SchemaOkSpec fields) →
        parseDbtQuoting loadsW (some "x") = .error (.invalidArguments
          "The supplied parameter dbt_quoting is a valid JSON but has an incorrect format")))) :=
  parse_dbt_quoting_correct loadsW "x"

/-- C7 witness: a negative chunk size is rejected with no invocation. -/
theorem dispatch_rejects_invalid_witness :
    ((-3 : Int) ≤ 0 ∨ "update_sent_alerts" = "")
    ∧ ((∃ e, ∀ ex, dispatch ["a"] "update_sent_alerts" (-3) [] ex = .error e)
      ∧ (∀ ex ex', dispatch (α := String) ["a"] "update_sent_alerts" (-3) [] ex
          = dispatch ["a"] "update_sent_alerts" (-3) [] ex')
      ∧ (∀ ex, invocationCount
          (dispatch ["a"] "update_sent_alerts" (-3) [] ex) = 0)) :=
  ⟨Or.inl (by decide),
    dispatch_rejects_invalid ["a"] "update_sent_alerts" (-3) []
      (Or.inl (by decide))⟩
